import Mathlib

/-!
Shallow embedding of the `/predict` endpoint of `app.py`
(Yield-Prediction-Flask-BE).

The endpoint reads a JSON body with an optional `year`, a list
`monthly_data` of month records, and for each record: checks the month
value, collects soil and weather fields, rejects the first `None` value
among them, builds a mid-month timestamp, and calls the external
`ensemble_predict`.  Numeric JSON values are modelled as `ℚ`; a field
that is absent or JSON-null is `none` (Python's `dict.get` returns
`None` in both cases), except `Weather Description` where
`get(key, 'normal')` distinguishes an absent key from an explicit null,
so that field is `Option (Option String)`.  The external estimator
`ensemble_predict` (defined in `utils/model_utils.py`, outside the
sources analysed here) is a parameter of the embedding: it may raise
(`Except.error`), return a falsy value (`Option.none`) or return a
prediction record.
-/

attribute [local semireducible] Rat.mul Rat.inv Rat.add Rat.sub

deriving instance DecidableEq for Except

namespace App

/-- One element of the request's `monthly_data` list, as read by the
handler via `month_data.get(...)` (`app.py` lines 33, 41-54). -/
structure MonthData where
  month : Option ℚ
  sm_10 : Option ℚ
  sm_20 : Option ℚ
  sm_30 : Option ℚ
  age : Option ℚ
  soil_type : Option String
  temperature : Option ℚ
  humidity : Option ℚ
  rainfall : Option ℚ
  weatherDescription : Option (Option String)
  deriving DecidableEq, Repr

/-- The prediction record returned by the external `ensemble_predict`;
the handler only inspects its `ensemble_prediction` key (line 83). -/
structure Pred where
  ensemble_prediction : ℚ
  deriving DecidableEq, Repr

/-- The `soil_data` dict after validation has ruled out `None` values
(lines 41-47). -/
structure ValidSoil where
  sm_10 : ℚ
  sm_20 : ℚ
  sm_30 : ℚ
  age : ℚ
  soil_type : String
  deriving DecidableEq, Repr

/-- The `weather_data` dict after validation has ruled out `None`
values (lines 49-54). -/
structure ValidWeather where
  temperature : ℚ
  humidity : ℚ
  rainfall : ℚ
  weather_description : String
  deriving DecidableEq, Repr

/-- The `pd.Timestamp(year=..., month=..., day=15)` value built at
line 65; it carries no time-of-day information. -/
structure PDate where
  year : ℤ
  month : ℤ
  day : ℤ
  deriving DecidableEq, Repr

/-- The external `ensemble_predict` collaborator: it may raise an
exception (`Except.error`, caught by the per-month handler at line 71),
return a falsy value (`Option.none`, skipped by `if prediction:` at
line 69) or return a prediction record. -/
abbrev Estimator := ValidSoil → ValidWeather → PDate → Except String (Option Pred)

/-- The structured content of the JSON `message` strings produced by
the handler; each constructor carries exactly the values interpolated
into the corresponding f-string of `app.py`. -/
inductive ErrMsg where
  /-- line 25: `No monthly data provided` -/
  | noMonthlyData
  /-- line 37: `Invalid month: {month}` -/
  | invalidMonth (m : Option ℚ)
  /-- line 61: `Missing parameter for month {month}: {key}` -/
  | missingParam (month : ℚ) (field : String)
  /-- line 74: `Error processing month {month}: {str(e)}` -/
  | processingError (month : ℚ) (e : String)
  /-- line 90: `Failed to generate predictions` -/
  | failedToGenerate
  deriving DecidableEq, Repr

/-- The JSON response of `/predict`: either the success payload of
lines 78-86 or an error payload with its HTTP status code. -/
inductive Response where
  | success (year : ℤ) (monthly_predictions : List Pred) (average_prediction : ℚ)
  | error (message : ErrMsg) (code : ℕ)
  deriving DecidableEq, Repr

/-- The request body: `data.get('year', ...)` (line 17) and
`data.get('monthly_data', [])` (line 20, an absent key yields `[]`). -/
structure Request where
  year : Option ℤ
  monthly_data : List MonthData
  deriving DecidableEq, Repr

/-- The value of `month_data.get('Weather Description', 'normal')`
(line 53): the default applies only when the key is absent; an explicit
null still yields `None`. -/
def weatherDescGet (md : MonthData) : Option String :=
  match md.weatherDescription with
  | none => some "normal"
  | some v => v

/-- The validation loop of lines 57-62: iterate the merged dict
`{**soil_data, **weather_data}` in insertion order (soil fields first,
then weather fields) and report the first `None` value's key. -/
def firstMissing (md : MonthData) : Option String :=
  if md.sm_10.isNone then some "sm_10"
  else if md.sm_20.isNone then some "sm_20"
  else if md.sm_30.isNone then some "sm_30"
  else if md.age.isNone then some "age"
  else if md.soil_type.isNone then some "soil_type"
  else if md.temperature.isNone then some "Temperature (°C)"
  else if md.humidity.isNone then some "Humidity (%)"
  else if md.rainfall.isNone then some "Rainfall (mm)"
  else if (weatherDescGet md).isNone then some "Weather Description"
  else none

/-- The `soil_data` dict handed to `ensemble_predict` once validation
has ensured every field is present (the defaults are never exercised
after a successful `firstMissing` check). -/
def soilOf (md : MonthData) : ValidSoil :=
  { sm_10 := md.sm_10.getD 0
    sm_20 := md.sm_20.getD 0
    sm_30 := md.sm_30.getD 0
    age := md.age.getD 0
    soil_type := md.soil_type.getD "" }

/-- The `weather_data` dict handed to `ensemble_predict` once
validation has ensured every field is present. -/
def weatherOf (md : MonthData) : ValidWeather :=
  { temperature := md.temperature.getD 0
    humidity := md.humidity.getD 0
    rainfall := md.rainfall.getD 0
    weather_description := (weatherDescGet md).getD "" }

/-- Exception text of the modelled `pd.Timestamp` failure. -/
def timestampErr : String := "month must be an integer"

/-- Modelled external collaborator `pd.Timestamp(year=y, month=m, day=15)`
(line 65): pandas (like `datetime.date`) requires an integral month and
raises a `TypeError` on a non-integer value; the exception is caught by
the per-month handler. -/
def mkTimestamp (y : ℤ) (m : ℚ) : Except String PDate :=
  if m.den = 1 then .ok ⟨y, m.num, 15⟩ else .error timestampErr

/-- The body of the per-month loop (lines 31-75): month extraction and
range check (`if not month or not (1 <= month <= 12)`, where Python's
truthiness makes `None` and `0` falsy), the missing-parameter scan, the
timestamp construction, and the `ensemble_predict` call; an
`Except.error` is the early `return jsonify(...), 400`, and `.ok none`
is a falsy prediction that line 70 does not append. -/
def processMonth (est : Estimator) (year : ℤ) (md : MonthData) :
    Except ErrMsg (Option Pred) :=
  match md.month with
  | none => .error (.invalidMonth none)
  | some q =>
    if q = 0 ∨ ¬(1 ≤ q ∧ q ≤ 12) then .error (.invalidMonth (some q))
    else
      match firstMissing md with
      | some k => .error (.missingParam q k)
      | none =>
        match mkTimestamp year q with
        | .error e => .error (.processingError q e)
        | .ok d =>
          match est (soilOf md) (weatherOf md) d with
          | .error e => .error (.processingError q e)
          | .ok p => .ok p

/-- One iteration's effect on the accumulated `all_predictions`:
an error aborts everything, a falsy prediction is skipped, a real
prediction is appended. -/
def stepMonth (est : Estimator) (year : ℤ) (md : MonthData)
    (restRes : Except ErrMsg (List Pred)) : Except ErrMsg (List Pred) :=
  match processMonth est year md with
  | .error e => .error e
  | .ok none => restRes
  | .ok (some p) => restRes.map (fun ps => p :: ps)

/-- The `for month_data in monthly_data` loop (lines 30-75): the first
per-month error is returned for the whole request, discarding any
predictions accumulated so far; otherwise the non-falsy predictions are
collected in input order. -/
def runMonths (est : Estimator) (year : ℤ) : List MonthData → Except ErrMsg (List Pred)
  | [] => .ok []
  | md :: rest => stepMonth est year md (runMonths est year rest)

/-- Floor of a rational, via flooring integer division. -/
def qfloor (q : ℚ) : ℤ := q.num.fdiv q.den

/-- Round-half-to-even on a rational, the idealisation of Python 3's
built-in `round` (banker's rounding). -/
def roundHalfEven (q : ℚ) : ℤ :=
  let f := qfloor q
  let r := q - (f : ℚ)
  if r < 1/2 then f
  else if 1/2 < r then f + 1
  else if f % 2 = 0 then f else f + 1

/-- Python's `round(x, 2)` (line 82): round to two decimal places. -/
def round2 (q : ℚ) : ℚ := (roundHalfEven (q * 100) : ℚ) / 100

/-- The `average_prediction` field of the success payload (lines 82-85):
the mean of the collected `ensemble_prediction` values, rounded to two
decimal places. -/
def avgPrediction (ps : List Pred) : ℚ :=
  round2 ((ps.map Pred.ensemble_prediction).sum / (ps.length : ℚ))

/-- The `/predict` handler (lines 11-97).  `nowYear` is the value of
`datetime.now().year`, used when the request omits `year` (line 17).
An empty (or absent, hence defaulted to `[]`) `monthly_data` fails fast
(lines 22-26); a per-month error becomes the whole response (400); with
no usable prediction the response is the 500 of lines 88-91; otherwise
the success payload of lines 78-86 is returned. -/
def predict (est : Estimator) (nowYear : ℤ) (req : Request) : Response :=
  let py := req.year.getD nowYear
  if req.monthly_data = [] then .error .noMonthlyData 400
  else
    match runMonths est py req.monthly_data with
    | .error e => .error e 400
    | .ok ps =>
      if ps = [] then .error .failedToGenerate 500
      else .success py ps (avgPrediction ps)

/-- The prediction a single month record contributes, if any: `some p`
exactly when its processing both raises no error and yields a truthy
prediction. -/
def monthSuccess (est : Estimator) (year : ℤ) (md : MonthData) : Option Pred :=
  match processMonth est year md with
  | .ok (some p) => some p
  | _ => none

/-- The successful months' predictions of a batch, in input order. -/
def successesOf (est : Estimator) (year : ℤ) (l : List MonthData) : List Pred :=
  l.filterMap (monthSuccess est year)

/-- The `average_prediction` field of a response, when present. -/
def avgOf : Response → Option ℚ
  | .success _ _ a => some a
  | .error _ _ => none

/-- Whether an `Except` value is a success. -/
def exceptOk {ε α : Type} : Except ε α → Bool
  | .ok _ => true
  | .error _ => false

/-- A month record with every field supplied, as in the sample data of
`app.py`; the month value is the argument. -/
def fullMd (m : ℚ) : MonthData :=
  { month := some m
    sm_10 := some 25
    sm_20 := some 31
    sm_30 := some 41
    age := some 5
    soil_type := some "Red Yellow Podzolic"
    temperature := some 27
    humidity := some 67
    rainfall := some 5
    weatherDescription := some (some "sunny") }

/-- `fullMd` with the required `sm_10` key absent. -/
def noSm10Md (m : ℚ) : MonthData := { fullMd m with sm_10 := none }

/-- `fullMd` with the required `sm_20` key absent. -/
def noSm20Md (m : ℚ) : MonthData := { fullMd m with sm_20 := none }

/-- `fullMd` with the optional `Weather Description` key absent. -/
def wdAbsentMd (m : ℚ) : MonthData := { fullMd m with weatherDescription := none }

/-- An estimator that always succeeds with the given value. -/
def estConst (v : ℚ) : Estimator := fun _ _ _ => .ok (some ⟨v⟩)

/-- An estimator that returns a falsy result for January dates and a
prediction of 42 otherwise. -/
def estSkipJan : Estimator := fun _ _ d =>
  if d.month = 1 then .ok none else .ok (some ⟨42⟩)


theorem exceptOk_map {ε α β : Type} (f : α → β) (x : Except ε α) :
    exceptOk (x.map f) = exceptOk x := by
  cases x <;> rfl

theorem stepMonth_error {est : Estimator} {y : ℤ} {md : MonthData} {e : ErrMsg}
    (h : processMonth est y md = .error e) (r : Except ErrMsg (List Pred)) :
    stepMonth est y md r = .error e := by
  simp [stepMonth, h]

theorem stepMonth_none {est : Estimator} {y : ℤ} {md : MonthData}
    (h : processMonth est y md = .ok none) (r : Except ErrMsg (List Pred)) :
    stepMonth est y md r = r := by
  simp [stepMonth, h]

theorem stepMonth_some {est : Estimator} {y : ℤ} {md : MonthData} {p : Pred}
    (h : processMonth est y md = .ok (some p)) (r : Except ErrMsg (List Pred)) :
    stepMonth est y md r = r.map (fun ps => p :: ps) := by
  simp [stepMonth, h]

/-- The loop returns a list (rather than aborting) exactly when every
month record in the batch processes without error. -/
theorem runMonths_isOk_iff (est : Estimator) (y : ℤ) :
    ∀ (l : List MonthData),
      exceptOk (runMonths est y l) = true ↔
        ∀ md ∈ l, exceptOk (processMonth est y md) = true
  | [] => by simp [runMonths, exceptOk]
  | md :: rest => by
    cases hp : processMonth est y md with
    | error e =>
      simp only [runMonths, stepMonth_error hp]
      constructor
      · intro h; simp [exceptOk] at h
      · intro h
        have := h md (by simp)
        rw [hp] at this
        simp [exceptOk] at this
    | ok o =>
      have hrec := runMonths_isOk_iff est y rest
      cases o with
      | none =>
        simp only [runMonths, stepMonth_none hp]
        rw [hrec]
        constructor
        · intro h m hm
          rcases List.mem_cons.mp hm with h1 | h1
          · rw [h1, hp]; rfl
          · exact h m h1
        · intro h m hm; exact h m (List.mem_cons_of_mem _ hm)
      | some p =>
        simp only [runMonths, stepMonth_some hp, exceptOk_map]
        rw [hrec]
        constructor
        · intro h m hm
          rcases List.mem_cons.mp hm with h1 | h1
          · rw [h1, hp]; rfl
          · exact h m h1
        · intro h m hm; exact h m (List.mem_cons_of_mem _ hm)

/-- When no month aborts, the loop collects exactly the successful
months' predictions, in input order. -/
theorem runMonths_ok_of_forall (est : Estimator) (y : ℤ) :
    ∀ (l : List MonthData),
      (∀ md ∈ l, exceptOk (processMonth est y md) = true) →
      runMonths est y l = .ok (successesOf est y l)
  | [], _ => rfl
  | md :: rest, h => by
    have hmd := h md (by simp)
    have hrest := runMonths_ok_of_forall est y rest
      (fun m hm => h m (List.mem_cons_of_mem _ hm))
    cases hp : processMonth est y md with
    | error e => rw [hp] at hmd; simp [exceptOk] at hmd
    | ok o =>
      cases o with
      | none =>
        simp only [runMonths, stepMonth_none hp, hrest, successesOf,
          List.filterMap_cons, monthSuccess, hp]
      | some p =>
        simp only [runMonths, stepMonth_some hp, hrest, successesOf,
          List.filterMap_cons, monthSuccess, hp, Except.map]

/-- Whatever list the loop returns is exactly the successful months'
predictions of the batch. -/
theorem runMonths_ok_eq (est : Estimator) (y : ℤ) :
    ∀ (l : List MonthData) (ps : List Pred), runMonths est y l = .ok ps →
      ps = successesOf est y l
  | [], ps, h => by
    simp only [runMonths, Except.ok.injEq] at h
    simp [successesOf, ← h]
  | md :: rest, ps, h => by
    cases hp : processMonth est y md with
    | error e => rw [runMonths, stepMonth_error hp] at h; cases h
    | ok o =>
      cases o with
      | none =>
        rw [runMonths, stepMonth_none hp] at h
        have := runMonths_ok_eq est y rest ps h
        simp [successesOf, List.filterMap_cons, monthSuccess, hp, this]
      | some p =>
        rw [runMonths, stepMonth_some hp] at h
        cases hr : runMonths est y rest with
        | error e => rw [hr] at h; cases h
        | ok ps2 =>
          rw [hr] at h
          simp only [Except.map, Except.ok.injEq] at h
          have := runMonths_ok_eq est y rest ps2 hr
          simp [successesOf, List.filterMap_cons, monthSuccess, hp, ← h, this]

/-- A successful prefix followed by a failing month makes the whole
loop return that month's error, whatever comes after. -/
theorem runMonths_append_error (est : Estimator) (y : ℤ) :
    ∀ (l1 : List MonthData) (ps : List Pred) (md : MonthData)
      (l2 : List MonthData) (e : ErrMsg),
      runMonths est y l1 = .ok ps → processMonth est y md = .error e →
      runMonths est y (l1 ++ md :: l2) = .error e
  | [], ps, md, l2, e, _, h2 => by
    rw [List.nil_append, runMonths, stepMonth_error h2]
  | a :: l1, ps, md, l2, e, h1, h2 => by
    cases ha : processMonth est y a with
    | error e2 => rw [runMonths, stepMonth_error ha] at h1; cases h1
    | ok o =>
      cases o with
      | none =>
        rw [runMonths, stepMonth_none ha] at h1
        rw [List.cons_append, runMonths, stepMonth_none ha]
        exact runMonths_append_error est y l1 ps md l2 e h1 h2
      | some p =>
        rw [runMonths, stepMonth_some ha] at h1
        cases hr : runMonths est y l1 with
        | error e2 => rw [hr] at h1; cases h1
        | ok ps2 =>
          rw [List.cons_append, runMonths, stepMonth_some ha,
            runMonths_append_error est y l1 ps2 md l2 e hr h2]
          rfl

/-- Permuting a list of predictions does not change their rounded
average. -/
theorem avgPrediction_perm {ps ps2 : List Pred} (h : ps.Perm ps2) :
    avgPrediction ps = avgPrediction ps2 := by
  unfold avgPrediction
  rw [(h.map Pred.ensemble_prediction).sum_eq, h.length_eq]

/-- A batch whose prefix processes without error and whose next record
fails returns that record's error as the whole response. -/
theorem predict_abort (est : Estimator) (nowY : ℤ) (oy : Option ℤ)
    (l1 : List MonthData) (md : MonthData) (l2 : List MonthData)
    (ps : List Pred) (e : ErrMsg)
    (h1 : runMonths est (oy.getD nowY) l1 = .ok ps)
    (h2 : processMonth est (oy.getD nowY) md = .error e) :
    predict est nowY ⟨oy, l1 ++ md :: l2⟩ = .error e 400 := by
  have hne : l1 ++ md :: l2 ≠ [] := by cases l1 <;> simp
  have hrun := runMonths_append_error est (oy.getD nowY) l1 ps md l2 e h1 h2
  simp [predict, hne, hrun]

/-- C1 (counterexample): with an estimator that always succeeds, month 1
alone yields a success response, yet the batch pairing it with a month
whose required `sm_10` is absent returns only that month's error with
status 400: the failing month aborts its sibling, whose prediction is
dropped from the result instead of being returned alongside a per-month
error. -/
theorem c1_counterexample :
    predict (estConst 100) 2024 ⟨some 2024, [fullMd 1]⟩
        = .success 2024 [⟨100⟩] 100
    ∧ predict (estConst 100) 2024 ⟨some 2024, [fullMd 1, noSm10Md 2]⟩
        = .error (.missingParam 2 "sm_10") 400 := by
  exact ⟨by decide, by decide⟩

/-- C1 (amended): a month's validation or processing failure aborts the
whole batch: when every month before it processes without error, the
request returns exactly the failing month's error with status 400 — no
sibling month is reported in the response and earlier months'
successful predictions are discarded. -/
theorem c1_failure_aborts_batch (est : Estimator) (nowY : ℤ) (oy : Option ℤ)
    (l1 : List MonthData) (md : MonthData) (l2 : List MonthData)
    (ps : List Pred) (e : ErrMsg)
    (h1 : runMonths est (oy.getD nowY) l1 = .ok ps)
    (h2 : processMonth est (oy.getD nowY) md = .error e) :
    predict est nowY ⟨oy, l1 ++ md :: l2⟩ = .error e 400 :=
  predict_abort est nowY oy l1 md l2 ps e h1 h2

/-- C1 (witness): in the batch `[month 5, month 13, month 6]` the
invalid month 13 aborts everything: the response is its error alone. -/
theorem c1_witness :
    predict (estConst 100) 2024 ⟨some 2024, [fullMd 5, fullMd 13, fullMd 6]⟩
      = .error (.invalidMonth (some 13)) 400 :=
  c1_failure_aborts_batch (estConst 100) 2024 (some 2024) [fullMd 5]
    (fullMd 13) [fullMd 6] [⟨100⟩] (.invalidMonth (some 13))
    (by decide) (by decide)

/-- C2: when the loop reaches a month record (every preceding record
processes without error) whose month value is valid and in which some
required field is null or absent, the request fails with the validation
error naming that month number and the first missing field in the fixed
soil-then-weather order of `firstMissing`. -/
theorem c2_first_missing_field (est : Estimator) (nowY : ℤ) (oy : Option ℤ)
    (l1 : List MonthData) (md : MonthData) (l2 : List MonthData)
    (ps : List Pred) (q : ℚ) (k : String)
    (h1 : runMonths est (oy.getD nowY) l1 = .ok ps)
    (hm : md.month = some q) (h0 : ¬ q = 0) (hr1 : 1 ≤ q) (hr2 : q ≤ 12)
    (hk : firstMissing md = some k) :
    predict est nowY ⟨oy, l1 ++ md :: l2⟩ = .error (.missingParam q k) 400 := by
  have hp : processMonth est (oy.getD nowY) md = .error (.missingParam q k) := by
    simp [processMonth, hm, hk, h0, hr1, hr2]
  exact predict_abort est nowY oy l1 md l2 ps (.missingParam q k) h1 hp

/-- C2 (witness): a record for month 2 lacking `sm_20` makes the
request fail naming month 2 and `sm_20`. -/
theorem c2_witness :
    predict (estConst 8) 2027 ⟨none, [noSm20Md 2, fullMd 3]⟩
      = .error (.missingParam 2 "sm_20") 400 :=
  c2_first_missing_field (estConst 8) 2027 none [] (noSm20Md 2) [fullMd 3]
    [] 2 "sm_20" rfl (by decide) (by decide) (by decide) (by decide) (by decide)

/-- C3 (counterexample): month 1 succeeds on its own (success response
with its average), yet adding a failing month 13 to the batch makes the
response an error that carries no `average_prediction` and no
prediction list at all — so a batch "in which at least one month
succeeds" need not return the successful months' mean. -/
theorem c3_counterexample :
    predict (estConst 200) 2025 ⟨some 2025, [fullMd 1]⟩
        = .success 2025 [⟨200⟩] 200
    ∧ predict (estConst 200) 2025 ⟨some 2025, [fullMd 1, fullMd 13]⟩
        = .error (.invalidMonth (some 13)) 400 := by
  exact ⟨by decide, by decide⟩

/-- C3 (amended): provided additionally that no month in the batch
fails validation or processing (a failure aborts the whole batch) and
at least one month yields a usable prediction, the response is a
success whose `monthly_predictions` are exactly the successful months'
results in input order and whose `average_prediction` is the
arithmetic mean of their `ensemble_prediction` values rounded to two
decimal places. -/
theorem c3_average_of_successes (est : Estimator) (nowY : ℤ) (oy : Option ℤ)
    (l : List MonthData)
    (hok : ∀ md ∈ l, exceptOk (processMonth est (oy.getD nowY) md) = true)
    (hne : successesOf est (oy.getD nowY) l ≠ []) :
    predict est nowY ⟨oy, l⟩ =
      .success (oy.getD nowY) (successesOf est (oy.getD nowY) l)
        (round2 (((successesOf est (oy.getD nowY) l).map Pred.ensemble_prediction).sum
          / ((successesOf est (oy.getD nowY) l).length : ℚ))) := by
  have hl : l ≠ [] := by
    intro h; subst h; exact hne rfl
  have hrun := runMonths_ok_of_forall est (oy.getD nowY) l hok
  simp [predict, hl, hrun, hne, avgPrediction]

/-- C3 (witness): with an estimator that is falsy on January, the batch
response averages only over the two usable months (January is skipped). -/
theorem c3_witness :
    predict estSkipJan 2024 ⟨some 2024, [fullMd 1, fullMd 2, fullMd 4]⟩
      = .success 2024 [⟨42⟩, ⟨42⟩] 42 := by
  have h := c3_average_of_successes estSkipJan 2024 (some 2024)
    [fullMd 1, fullMd 2, fullMd 4] (by decide) (by decide)
  rw [h]; decide

/-- C4: the `average_prediction` of the batch response is invariant
under any permutation of the input month list (the reduction is a sum
divided by a count, both order-independent); an aborting batch carries
no average under either order. -/
theorem c4_perm_invariant (est : Estimator) (nowY : ℤ) (oy : Option ℤ)
    (l l2 : List MonthData) (hp : l.Perm l2) :
    avgOf (predict est nowY ⟨oy, l⟩) = avgOf (predict est nowY ⟨oy, l2⟩) := by
  by_cases hl : l = []
  · have hl2 : l2 = [] := by subst hl; exact hp.symm.eq_nil
    subst hl; subst hl2; rfl
  · have hl2 : l2 ≠ [] := by
      intro h; apply hl; rw [h] at hp; exact hp.eq_nil
    cases hok : exceptOk (runMonths est (oy.getD nowY) l) with
    | true =>
      have hall := (runMonths_isOk_iff est (oy.getD nowY) l).mp hok
      have hall2 : ∀ md ∈ l2, exceptOk (processMonth est (oy.getD nowY) md) = true :=
        fun md hm => hall md (hp.mem_iff.mpr hm)
      have h1 := runMonths_ok_of_forall est (oy.getD nowY) l hall
      have h2 := runMonths_ok_of_forall est (oy.getD nowY) l2 hall2
      have hsp : (successesOf est (oy.getD nowY) l).Perm
          (successesOf est (oy.getD nowY) l2) := hp.filterMap _
      by_cases hs : successesOf est (oy.getD nowY) l = []
      · have hs2 : successesOf est (oy.getD nowY) l2 = [] := by
          rw [hs] at hsp; exact hsp.symm.eq_nil
        simp [predict, hl, hl2, h1, h2, hs, hs2, avgOf]
      · have hs2 : successesOf est (oy.getD nowY) l2 ≠ [] := by
          intro h; apply hs; rw [h] at hsp; exact hsp.eq_nil
        simp [predict, hl, hl2, h1, h2, hs, hs2, avgOf]
        exact avgPrediction_perm hsp
    | false =>
      have hf : ∃ e, runMonths est (oy.getD nowY) l = .error e := by
        cases hr : runMonths est (oy.getD nowY) l with
        | error e => exact ⟨e, rfl⟩
        | ok ps => rw [hr] at hok; simp [exceptOk] at hok
      have hok2 : exceptOk (runMonths est (oy.getD nowY) l2) = false := by
        cases hr2 : runMonths est (oy.getD nowY) l2 with
        | error e => rfl
        | ok ps =>
          have ht : exceptOk (runMonths est (oy.getD nowY) l2) = true := by
            rw [hr2]; rfl
          have hall2 := (runMonths_isOk_iff est (oy.getD nowY) l2).mp ht
          have hall : ∀ md ∈ l, exceptOk (processMonth est (oy.getD nowY) md) = true :=
            fun md hm => hall2 md (hp.mem_iff.mp hm)
          have := (runMonths_isOk_iff est (oy.getD nowY) l).mpr hall
          rw [this] at hok; cases hok
      have hf2 : ∃ e, runMonths est (oy.getD nowY) l2 = .error e := by
        cases hr : runMonths est (oy.getD nowY) l2 with
        | error e => exact ⟨e, rfl⟩
        | ok ps => rw [hr] at hok2; simp [exceptOk] at hok2
      obtain ⟨e, he⟩ := hf
      obtain ⟨e2, he2⟩ := hf2
      simp [predict, hl, hl2, he, he2, avgOf]

/-- C4 (witness): swapping two months leaves the average unchanged. -/
theorem c4_witness :
    avgOf (predict (estConst 10) 2024 ⟨some 2024, [fullMd 1, fullMd 2]⟩)
      = avgOf (predict (estConst 10) 2024 ⟨some 2024, [fullMd 2, fullMd 1]⟩) :=
  c4_perm_invariant (estConst 10) 2024 (some 2024)
    [fullMd 1, fullMd 2] [fullMd 2, fullMd 1]
    (List.Perm.swap (fullMd 2) (fullMd 1) [])

/-- Whether a response is an error payload. -/
def isErr : Response → Bool
  | .error _ _ => true
  | .success _ _ _ => false

/-- A batch all of whose months yield falsy predictions collects
nothing. -/
theorem runMonths_all_none (est : Estimator) (y : ℤ) :
    ∀ (l : List MonthData), (∀ m ∈ l, processMonth est y m = .ok none) →
      runMonths est y l = .ok []
  | [], _ => rfl
  | md :: rest, h => by
    rw [runMonths, stepMonth_none (h md (by simp))]
    exact runMonths_all_none est y rest (fun m hm => h m (List.mem_cons_of_mem _ hm))

/-- C5 (counterexample): a month value of 2.5 — non-integer but inside
[1, 12] — passes the month validation check; the record fails only at
prediction-date construction, producing the per-month processing error,
not the `Invalid month` validation error the claim describes. -/
theorem c5_counterexample :
    predict (estConst 7) 2024 ⟨some 2024, [fullMd (5/2)]⟩
        = .error (.processingError (5/2) timestampErr) 400
    ∧ (Response.error (.processingError (5/2) timestampErr) 400
        ≠ Response.error (.invalidMonth (some (5/2))) 400) := by
  exact ⟨by decide, by decide⟩

/-- C5 (amended): a month yields a prediction only when its value is an
integer in [1, 12]; a missing month, or a value outside [1, 12], is
rejected by the month check with the `Invalid month` validation error
naming the value; but a NON-integer value inside [1, 12] passes that
check and fails later, at prediction-date construction, reported as the
per-month processing error that names the month value. -/
theorem c5_month_validation (est : Estimator) (y : ℤ) (md : MonthData) :
    ((∃ o, processMonth est y md = .ok o) →
        ∃ q : ℚ, md.month = some q ∧ q.den = 1 ∧ 1 ≤ q ∧ q ≤ 12)
    ∧ (md.month = none → processMonth est y md = .error (.invalidMonth none))
    ∧ (∀ q : ℚ, md.month = some q → ¬(1 ≤ q ∧ q ≤ 12) →
        processMonth est y md = .error (.invalidMonth (some q)))
    ∧ (∀ q : ℚ, md.month = some q → q.den ≠ 1 → 1 ≤ q → q ≤ 12 →
        firstMissing md = none →
        processMonth est y md = .error (.processingError q timestampErr)) := by
  refine ⟨?_, ?_, ?_, ?_⟩
  · rintro ⟨o, ho⟩
    cases hm : md.month with
    | none => simp [processMonth, hm] at ho
    | some q =>
      by_cases hc : q = 0 ∨ ¬(1 ≤ q ∧ q ≤ 12)
      · have he : processMonth est y md = .error (.invalidMonth (some q)) := by
          simp only [processMonth, hm]; rw [if_pos hc]
        rw [he] at ho; cases ho
      · push_neg at hc
        obtain ⟨h0, hr⟩ := hc
        have hcond : ¬(q = 0 ∨ ¬(1 ≤ q ∧ q ≤ 12)) := by
          rintro (h | h)
          · exact h0 h
          · exact h hr
        cases hk : firstMissing md with
        | some k =>
          have he : processMonth est y md = .error (.missingParam q k) := by
            simp only [processMonth, hm, hk]; rw [if_neg hcond]
          rw [he] at ho; cases ho
        | none =>
          by_cases hden : q.den = 1
          · exact ⟨q, rfl, hden, hr.1, hr.2⟩
          · have he : processMonth est y md
                = .error (.processingError q timestampErr) := by
              simp only [processMonth, hm, hk]
              rw [if_neg hcond]
              simp [mkTimestamp, hden]
            rw [he] at ho; cases ho
  · intro hm; simp [processMonth, hm]
  · intro q hm hnr
    simp only [processMonth, hm]
    rw [if_pos (Or.inr hnr)]
  · intro q hm hden h1 h12 hfm
    have hcond : ¬(q = 0 ∨ ¬(1 ≤ q ∧ q ≤ 12)) := by
      rintro (h0 | hnr)
      · rw [h0] at h1; norm_num at h1
      · exact hnr ⟨h1, h12⟩
    simp only [processMonth, hm, hfm]
    rw [if_neg hcond]
    simp [mkTimestamp, hden]

/-- C5 (witness): month 7/2 with all fields present fails at the date
step with the processing error naming 7/2. -/
theorem c5_witness :
    processMonth (estConst 3) 2024 (fullMd (7/2))
      = .error (.processingError (7/2) timestampErr) :=
  (c5_month_validation (estConst 3) 2024 (fullMd (7/2))).2.2.2 (7/2)
    (by decide) (by decide) (by decide) (by decide) (by decide)

/-- C6 (counterexample): the estimator returns no usable value for
month 1 (January) and a prediction for month 2; the response is a
success containing only month 2's prediction and its average — month
1's failure to produce a value is silently omitted, with no per-month
error reported for it. -/
theorem c6_counterexample :
    predict estSkipJan 2024 ⟨some 2024, [fullMd 1, fullMd 2]⟩
      = .success 2024 [⟨42⟩] 42 := by decide

/-- C6 (amended): a month whose estimation step returns no usable value
is silently skipped — it contributes neither an error nor a prediction
to the batch — and the batch reports a failure only when no month at
all yields a usable value (then the 500 `Failed to generate
predictions`); failure paths that raise do yield typed errors. -/
theorem c6_silent_skip (est : Estimator) (y : ℤ) (md : MonthData)
    (rest : List MonthData) (nowY : ℤ) (oy : Option ℤ) (l : List MonthData) :
    (processMonth est y md = .ok none →
        runMonths est y (md :: rest) = runMonths est y rest)
    ∧ (l ≠ [] → (∀ m ∈ l, processMonth est (oy.getD nowY) m = .ok none) →
        predict est nowY ⟨oy, l⟩ = .error .failedToGenerate 500) := by
  constructor
  · intro h; rw [runMonths, stepMonth_none h]
  · intro hl hall
    have hrun := runMonths_all_none est (oy.getD nowY) l hall
    simp [predict, hl, hrun]

/-- C6 (witness): a single falsy month yields the batch-level 500, and
its skip leaves the loop result unchanged. -/
theorem c6_witness :
    predict estSkipJan 2024 ⟨some 2024, [fullMd 1]⟩
      = .error .failedToGenerate 500 :=
  (c6_silent_skip estSkipJan 2024 (fullMd 1) [] 2024 (some 2024) [fullMd 1]).2
    (by decide) (by decide)

/-- C7: an empty (or absent, defaulted-to-empty) month list fails fast
with the batch-level `No monthly data provided` error before any
per-month processing (the response does not depend on the estimator);
and whenever zero months of a batch produce a usable prediction, the
response is an error. -/
theorem c7_batch_failure (est : Estimator) (nowY : ℤ) (oy : Option ℤ)
    (l : List MonthData) :
    (predict est nowY ⟨oy, []⟩ = .error .noMonthlyData 400)
    ∧ (successesOf est (oy.getD nowY) l = [] →
        isErr (predict est nowY ⟨oy, l⟩) = true) := by
  constructor
  · rfl
  · intro hs
    by_cases hl : l = []
    · rw [hl]; rfl
    · cases hr : runMonths est (oy.getD nowY) l with
      | error e => simp [predict, hl, hr, isErr]
      | ok ps =>
        have hps := runMonths_ok_eq est (oy.getD nowY) l ps hr
        rw [hs] at hps
        simp [predict, hl, hr, hps, isErr]

/-- C7 (witness): a batch whose only month is the invalid month 0
produces no usable prediction and the response is an error. -/
theorem c7_witness :
    predict (estConst 5) 2024 ⟨none, []⟩ = .error .noMonthlyData 400
    ∧ isErr (predict (estConst 5) 2024 ⟨none, [fullMd 0]⟩) = true :=
  ⟨(c7_batch_failure (estConst 5) 2024 none []).1,
    (c7_batch_failure (estConst 5) 2024 none [fullMd 0]).2 (by decide)⟩

/-- C8: when `Weather Description` is absent from a month record, the
default `"normal"` is what the estimator receives in the weather data;
the record behaves exactly as if `"normal"` had been supplied, the
missing-parameter scan never reports `Weather Description`, and — it
being the sole exempt field — validation passes as soon as the eight
required soil and weather fields are present. -/
theorem c8_weather_default (est : Estimator) (y : ℤ) (md : MonthData)
    (h : md.weatherDescription = none) :
    weatherDescGet md = some "normal"
    ∧ (weatherOf md).weather_description = "normal"
    ∧ firstMissing md ≠ some "Weather Description"
    ∧ processMonth est y md
        = processMonth est y { md with weatherDescription := some (some "normal") }
    ∧ (md.sm_10 ≠ none → md.sm_20 ≠ none → md.sm_30 ≠ none → md.age ≠ none →
        md.soil_type ≠ none → md.temperature ≠ none → md.humidity ≠ none →
        md.rainfall ≠ none → firstMissing md = none) := by
  have hget : weatherDescGet md = some "normal" := by rw [weatherDescGet, h]
  refine ⟨hget, ?_, ?_, ?_, ?_⟩
  · simp [weatherOf, hget]
  · simp only [firstMissing, hget]
    split_ifs <;> simp_all
  · simp [processMonth, firstMissing, weatherOf, soilOf, weatherDescGet, h]
  · intro h1 h2 h3 h4 h5 h6 h7 h8
    simp [firstMissing, hget, Option.isNone_iff_eq_none, h1, h2, h3, h4, h5, h6, h7, h8]

/-- C8 (witness): the record for month 4 with `Weather Description`
absent defaults to `"normal"`, validates, and processes exactly like
its explicit-"normal" twin. -/
theorem c8_witness :
    weatherDescGet (wdAbsentMd 4) = some "normal"
    ∧ (weatherOf (wdAbsentMd 4)).weather_description = "normal"
    ∧ firstMissing (wdAbsentMd 4) ≠ some "Weather Description"
    ∧ processMonth (estConst 1) 2024 (wdAbsentMd 4)
        = processMonth (estConst 1) 2024
            { wdAbsentMd 4 with weatherDescription := some (some "normal") }
    ∧ ((wdAbsentMd 4).sm_10 ≠ none → (wdAbsentMd 4).sm_20 ≠ none →
        (wdAbsentMd 4).sm_30 ≠ none → (wdAbsentMd 4).age ≠ none →
        (wdAbsentMd 4).soil_type ≠ none → (wdAbsentMd 4).temperature ≠ none →
        (wdAbsentMd 4).humidity ≠ none → (wdAbsentMd 4).rainfall ≠ none →
        firstMissing (wdAbsentMd 4) = none) :=
  c8_weather_default (estConst 1) 2024 (wdAbsentMd 4) rfl

/-- C9: for a month record that passes validation (valid integral month
in range, no missing field), the date handed to the estimation step is
built from the requested year and the record's month with the day fixed
to 15. -/
theorem c9_prediction_date (est : Estimator) (y : ℤ) (md : MonthData) (q : ℚ)
    (hm : md.month = some q) (hden : q.den = 1) (h1 : 1 ≤ q) (h12 : q ≤ 12)
    (hv : firstMissing md = none) :
    processMonth est y md =
      match est (soilOf md) (weatherOf md) ⟨y, q.num, 15⟩ with
      | .error e => .error (.processingError q e)
      | .ok p => .ok p := by
  have hcond : ¬(q = 0 ∨ ¬(1 ≤ q ∧ q ≤ 12)) := by
    rintro (h0 | hnr)
    · rw [h0] at h1; norm_num at h1
    · exact hnr ⟨h1, h12⟩
  simp only [processMonth, hm, hv]
  rw [if_neg hcond]
  simp [mkTimestamp, hden]

/-- C9 (witness): with a constant estimator, the June record processed
for year 2031 reduces to the estimator's value at the mid-month date. -/
theorem c9_witness :
    processMonth (estConst 9) 2031 (fullMd 6) = .ok (some ⟨9⟩) := by
  rw [c9_prediction_date (estConst 9) 2031 (fullMd 6) 6
    (by decide) (by decide) (by decide) (by decide) (by decide)]
  decide

/-- C10: a request that omits `year` behaves exactly as one supplying
the current calendar year (the `datetime.now().year` parameter), whose
value is then echoed in any success response; a supplied year is echoed
as given. -/
theorem c10_year_default (est : Estimator) (nowY : ℤ) (l : List MonthData)
    (y : ℤ) :
    (predict est nowY ⟨none, l⟩ = predict est nowY ⟨some nowY, l⟩)
    ∧ (∀ yr ps avg, predict est nowY ⟨some y, l⟩ = .success yr ps avg → yr = y)
    ∧ (∀ yr ps avg, predict est nowY ⟨none, l⟩ = .success yr ps avg → yr = nowY) := by
  have key : ∀ (oy : Option ℤ) (yr : ℤ) (ps : List Pred) (avg : ℚ),
      predict est nowY ⟨oy, l⟩ = .success yr ps avg → yr = oy.getD nowY := by
    intro oy yr ps avg h
    by_cases hl : l = []
    · rw [hl] at h; cases h
    · simp only [predict] at h
      rw [if_neg hl] at h
      cases hr : runMonths est (oy.getD nowY) l with
      | error e => rw [hr] at h; cases h
      | ok ps2 =>
        rw [hr] at h
        dsimp only at h
        by_cases hs : ps2 = []
        · rw [if_pos hs] at h; cases h
        · rw [if_neg hs] at h
          cases h
          rfl
  exact ⟨rfl, fun yr ps avg h => key (some y) yr ps avg h,
    fun yr ps avg h => key none yr ps avg h⟩

/-- C10 (witness): omitting the year is the same as supplying 2026 when
2026 is the current year, and the echoed year of the success response
is that year. -/
theorem c10_witness :
    predict (estConst 5) 2026 ⟨none, [fullMd 3]⟩
        = predict (estConst 5) 2026 ⟨some 2026, [fullMd 3]⟩
    ∧ (2026 : ℤ) = 2026 :=
  ⟨(c10_year_default (estConst 5) 2026 [fullMd 3] 2026).1,
    (c10_year_default (estConst 5) 2026 [fullMd 3] 2026).2.1 2026 [⟨5⟩] 5
      (by decide)⟩

end App
